import Mathlib

/-!
Shallow embedding of the typed database core declared in
`src/include/data_base/data_base.h` (the taro db interface).

The engine adapters implementing the pure virtual members
(`create_tbl_sql`, `query_tbl_sql`, `insert_tbl_sql`, `update_tbl_sql`,
`remove_tbl_sql`, `sum_tbl_sql`, `count_tbl_sql`, `average_tbl_sql`,
`excute_cmd`, `exec_cmd_ret_id`, `query`), together with the external
value codec `str_to_value` and the C parsers `atof`/`atol`, live outside
this core and are modelled as function parameters.  Each typed operation
returns, beside its result, the list of SQL strings it handed to the
execution facade during the call (its effect trace).  A result of `none`
models a failed `TARO_ASSERT` (fatal abort of the process).
-/

set_option autoImplicit false

namespace TaroDB

/-- Error codes of the taro runtime (`TARO_OK`, `TARO_ERR_FAILED`,
`TARO_ERR_INVALID_ARG`).  Their numeric values are defined in headers
outside this core; the database operations only ever distinguish these
three constants. -/
inductive ErrNo where
  | ok
  | failed
  | invalid_arg
  deriving DecidableEq

/-- One result row: the raw text of each returned column, with `none`
standing for SQL NULL (`get_col_val` returning a null pointer). -/
abbrev DBRow := List (Option String)

/-- Modelled from the spec: the cursor handed back by a successful engine
`query` (`query(sql) -> cursor-or-none`, section 4.6) is forward-only and
positioned on its first row — the marshalling loop in `DataBase::query`
is do-while, so a returned cursor always carries a current row; an
execution producing no rows is reported as no cursor.  The engine
adapters implementing `get_columns`/`get_col_val`/`next` are not under
`src/`; this structure records the data they would expose. -/
structure DBQueryResult where
  columns : List String
  firstRow : DBRow
  restRows : List DBRow

/-- Embedding of `DBQueryResult::get_columns`: the ordered returned column names. -/
def DBQueryResult.get_columns (r : DBQueryResult) : List String :=
  r.columns

/-- All rows of the cursor, current row first, in cursor order. -/
def DBQueryResult.rows (r : DBQueryResult) : List DBRow :=
  r.firstRow :: r.restRows

/-- Embedding of `DBQueryResult::get_col_val` on the current row: the raw text of
column `col`, `none` for a SQL NULL driver value. -/
def DBQueryResult.get_col_val (r : DBQueryResult) (col : Nat) : Option String :=
  (r.firstRow.get? col).join

/-- Embedding of `DBQueryResult::get<T>`: fetch column `col` of the current row and
convert it with the external codec `str_to_value`; a null driver value
returns the empty optional before the codec is ever consulted. -/
def DBQueryResult.get {V : Type} (str_to_value : String → Option V)
    (r : DBQueryResult) (col : Nat) : Option V :=
  match r.get_col_val col with
  | none => none
  | some ptr => str_to_value ptr

/-- Embedding of `ClsMemberReflectorSPtr`: per-member reflection data — the column
name (`get_name`) and the deserializer writing a raw column value
(`none` modelling a NULL `char*`) into the object. -/
structure ClsMemberReflector (T : Type) where
  get_name : String
  deserialize : Option String → T → T

/-- Modelled from the spec: the body of a reflector's `deserialize`
(declared in `db_reflector.h`, implementation not under `src/`) wraps
the value codec for the member's field — a NULL driver value leaves the
field at its default without invoking the codec (section 4.2), otherwise
the codec parses the text and on success the parsed value is written
into the field. -/
def mkDeserialize {T V : Type} (str_to_value : String → Option V)
    (write : V → T → T) : Option String → T → T
  | none, obj => obj
  | some s, obj =>
    match str_to_value s with
    | none => obj
    | some v => write v obj

/-- Inner loop of the row marshalling in `DataBase::query`: for each
returned column name (with its index), find the member reflector with
exactly that name (`std::find_if` + `TARO_ASSERT`, modelled as `none` on
assertion failure) and apply its `deserialize` to the raw column value
of the current row. -/
def marshalCols {T : Type} (members : List (ClsMemberReflector T))
    (row : DBRow) : List String → Nat → T → Option T
  | [], _, element => some element
  | c :: cs, i, element =>
    match members.find? (fun m => m.get_name == c) with
    | none => none
    | some m => marshalCols members row cs (i + 1) (m.deserialize ((row.get? i).join) element)

/-- Marshal one cursor row into a freshly default-initialized element
(`T element;` in the source), walking the returned columns from index 0. -/
def marshalRow {T : Type} (members : List (ClsMemberReflector T))
    (cols : List String) (element_default : T) (row : DBRow) : Option T :=
  marshalCols members row cols 0 element_default

/-- The do-while marshalling loop of `DataBase::query`: marshal the
current row, append, advance (`result->next()`), repeat while a row
remains; a failed per-row marshal (assertion) aborts the whole loop. -/
def queryRows {T : Type} (f : DBRow → Option T) : DBRow → List DBRow → Option (List T)
  | row, [] => (f row).map (fun t => [t])
  | row, r2 :: rs =>
    match f row with
    | none => none
    | some t => (queryRows f r2 rs).map (fun ts => t :: ts)

/-- Embedding of `DataBase::get_cls_info<T>`: look the type up in the `DBReflector`
registry (`find_class_name`, empty string meaning absent); if absent,
invoke the type's self-registration `T::db_cls_reflect()` and look up
again; `TARO_ASSERT(!name.empty())` (modelled as `none`) if still
absent; finally fetch the member reflectors.  The registry object
(`Reg`) and its accessors are parameters because `DBReflector` is
declared in `db_reflector.h`, outside `src/`.  The registry resulting
from the call is returned so that the number of applications of
`db_cls_reflect` is observable. -/
def get_cls_info {Reg M : Type} (find_class_name : Reg → String)
    (get_member_reflectors : Reg → List M) (db_cls_reflect : Reg → Reg)
    (inst : Reg) : Option (String × List M × Reg) :=
  let name := find_class_name inst
  if name = "" then
    let inst2 := db_cls_reflect inst
    let name2 := find_class_name inst2
    if name2 = "" then none
    else some (name2, get_member_reflectors inst2, inst2)
  else some (name, get_member_reflectors inst, inst)

/-- Embedding of `DataBase::get_class_name<T>`: same lazy-registration lookup as
`get_cls_info`, returning only the class name. -/
def get_class_name {Reg : Type} (find_class_name : Reg → String)
    (db_cls_reflect : Reg → Reg) (inst : Reg) : Option (String × Reg) :=
  let name := find_class_name inst
  if name = "" then
    let inst2 := db_cls_reflect inst
    let name2 := find_class_name inst2
    if name2 = "" then none
    else some (name2, inst2)
  else some (name, inst)

/-- Embedding of `DataBase::create_table<T>`: assert the type info
(`TARO_ASSERT(!name.empty() && members.size())`), compile via the
engine's `create_tbl_sql`, translate an empty compilation into
`TARO_ERR_INVALID_ARG` without executing, otherwise run the SQL through
`excute_cmd`. -/
def create_table {T C : Type} (name : String) (members : List (ClsMemberReflector T))
    (create_tbl_sql : String → List (ClsMemberReflector T) → C → String)
    (constraint : C) (excute_cmd : String → ErrNo) : Option ErrNo × List String :=
  if name = "" ∨ members.length = 0 then (none, [])
  else
    let cmd := create_tbl_sql name members constraint
    if cmd = "" then (some ErrNo.invalid_arg, [])
    else if excute_cmd cmd ≠ ErrNo.ok then (some ErrNo.failed, [cmd])
    else (some ErrNo.ok, [cmd])

/-- Embedding of `DataBase::drop_table<T>`: build `"drop table " + class name` by
string concatenation (no `*_tbl_sql` compiler is involved) and run it
through `excute_cmd`. -/
def drop_table (cls_name : String) (excute_cmd : String → ErrNo) : ErrNo × List String :=
  let cmd := "drop table " ++ cls_name
  if excute_cmd cmd ≠ ErrNo.ok then (ErrNo.failed, [cmd])
  else (ErrNo.ok, [cmd])

/-- Embedding of `DataBase::query<T>`: compile via the engine's `query_tbl_sql`
(empty compilation: log and return the empty vector), execute through
the facade `query` (null cursor: empty vector), read the returned
columns once (empty column list: empty vector), then run the do-while
marshalling loop over the cursor rows. -/
def query {T Q : Type} (name : String) (members : List (ClsMemberReflector T))
    (element_default : T)
    (query_tbl_sql : String → List (ClsMemberReflector T) → Q → String)
    (param : Q) (queryF : String → Option DBQueryResult) :
    Option (List T) × List String :=
  if name = "" ∨ members.length = 0 then (none, [])
  else
    let cmd := query_tbl_sql name members param
    if cmd = "" then (some [], [])
    else
      match queryF cmd with
      | none => (some [], [cmd])
      | some result =>
        let cols := result.get_columns
        if cols = [] then (some [], [cmd])
        else
          (queryRows (marshalRow members cols element_default) result.firstRow result.restRows,
           [cmd])

/-- Embedding of `DataBase::insert<T>`: compile via the engine's `insert_tbl_sql`,
translate an empty compilation into `TARO_ERR_INVALID_ARG` without
executing, otherwise run the SQL through `excute_cmd`. -/
def insert {T P : Type} (obj : T) (name : String) (members : List (ClsMemberReflector T))
    (insert_tbl_sql : T → String → List (ClsMemberReflector T) → P → String)
    (param : P) (excute_cmd : String → ErrNo) : Option ErrNo × List String :=
  if name = "" ∨ members.length = 0 then (none, [])
  else
    let cmd := insert_tbl_sql obj name members param
    if cmd = "" then (some ErrNo.invalid_arg, [])
    else if excute_cmd cmd ≠ ErrNo.ok then (some ErrNo.failed, [cmd])
    else (some ErrNo.ok, [cmd])

/-- Embedding of `DataBase::insert_ret_id<T>`: like `insert` but executing through
`exec_cmd_ret_id` and returning the generated row id; failures yield the
empty optional. -/
def insert_ret_id {T P : Type} (obj : T) (name : String)
    (members : List (ClsMemberReflector T))
    (insert_tbl_sql : T → String → List (ClsMemberReflector T) → P → String)
    (param : P) (exec_cmd_ret_id : String → ErrNo × Nat) :
    Option (Option Nat) × List String :=
  if name = "" ∨ members.length = 0 then (none, [])
  else
    let cmd := insert_tbl_sql obj name members param
    if cmd = "" then (some none, [])
    else
      let r := exec_cmd_ret_id cmd
      if r.1 ≠ ErrNo.ok then (some none, [cmd])
      else (some (some r.2), [cmd])

/-- Embedding of `DataBase::update<T>`: compile via the engine's `update_tbl_sql`,
translate an empty compilation into `TARO_ERR_INVALID_ARG` without
executing, otherwise run the SQL through `excute_cmd`. -/
def update {T P : Type} (obj : T) (name : String) (members : List (ClsMemberReflector T))
    (update_tbl_sql : T → String → List (ClsMemberReflector T) → P → String)
    (param : P) (excute_cmd : String → ErrNo) : Option ErrNo × List String :=
  if name = "" ∨ members.length = 0 then (none, [])
  else
    let cmd := update_tbl_sql obj name members param
    if cmd = "" then (some ErrNo.invalid_arg, [])
    else if excute_cmd cmd ≠ ErrNo.ok then (some ErrNo.failed, [cmd])
    else (some ErrNo.ok, [cmd])

/-- Embedding of `DataBase::remove<T>`: compile via the engine's `remove_tbl_sql`,
translate an empty compilation into `TARO_ERR_INVALID_ARG` without
executing, otherwise run the SQL through `excute_cmd`. -/
def remove {C : Type} (cls_name : String) (remove_tbl_sql : String → C → String)
    (cond : C) (excute_cmd : String → ErrNo) : ErrNo × List String :=
  let cmd := remove_tbl_sql cls_name cond
  if cmd = "" then (ErrNo.invalid_arg, [])
  else if excute_cmd cmd ≠ ErrNo.ok then (ErrNo.failed, [cmd])
  else (ErrNo.ok, [cmd])

/-- Embedding of `DataBase::sum<T>`: `TARO_ASSERT(STRING_CHECK(column))` then
`TARO_ASSERT(!sql.empty())` on the compiled `sum_tbl_sql` text (both
modelled as `none`); execute through the facade `query`; a null cursor
or a NULL first-column value yields the empty optional, otherwise the
text is parsed by the external `atof`. -/
def sum {V C : Type} (atof : String → V) (column : String) (cls_name : String)
    (sum_tbl_sql : String → String → C → String) (cond : C)
    (queryF : String → Option DBQueryResult) : Option (Option V) × List String :=
  if column = "" then (none, [])
  else
    let sql := sum_tbl_sql cls_name column cond
    if sql = "" then (none, [])
    else
      match queryF sql with
      | none => (some none, [sql])
      | some result =>
        match result.get_col_val 0 with
        | none => (some none, [sql])
        | some v => (some (some (atof v)), [sql])

/-- Embedding of `DataBase::count<T>`: `TARO_ASSERT(!sql.empty())` on the compiled
`count_tbl_sql` text (modelled as `none`); execute through the facade
`query`; a null cursor or a NULL first-column value yields the empty
optional, otherwise the text is parsed by the external `atol`. -/
def count {C : Type} (atol : String → Nat) (cls_name : String)
    (count_tbl_sql : String → C → String) (cond : C)
    (queryF : String → Option DBQueryResult) : Option (Option Nat) × List String :=
  let sql := count_tbl_sql cls_name cond
  if sql = "" then (none, [])
  else
    match queryF sql with
    | none => (some none, [sql])
    | some result =>
      match result.get_col_val 0 with
      | none => (some none, [sql])
      | some v => (some (some (atol v)), [sql])

/-- Embedding of `DataBase::average<T>`: same shape as `sum`, compiling through
`average_tbl_sql`. -/
def average {V C : Type} (atof : String → V) (column : String) (cls_name : String)
    (average_tbl_sql : String → String → C → String) (cond : C)
    (queryF : String → Option DBQueryResult) : Option (Option V) × List String :=
  if column = "" then (none, [])
  else
    let sql := average_tbl_sql cls_name column cond
    if sql = "" then (none, [])
    else
      match queryF sql with
      | none => (some none, [sql])
      | some result =>
        match result.get_col_val 0 with
        | none => (some none, [sql])
        | some v => (some (some (atof v)), [sql])

/-- Helper: parse a leading run of decimal digits, accumulator style. -/
def digitsToNat : List Char → Nat → Nat
  | [], n => n
  | c :: cs, n => if c.isDigit then digitsToNat cs (n * 10 + (c.toNat - 48)) else n

/-- Concrete stand-in for the C `atol` on the non-negative decimal
strings produced by `COUNT(*)`, used to instantiate witnesses. -/
def atol_model (s : String) : Nat :=
  digitsToNat s.data 0

/-- Helper: a returned column name carried by no member reflector makes
the per-row marshal loop abort, from any starting index and accumulator. -/
theorem marshalCols_eq_none_of_unmatched {T : Type}
    (members : List (ClsMemberReflector T)) (row : DBRow) (c : String) :
    (∀ m ∈ members, m.get_name ≠ c) →
    ∀ (cols : List String) (i : Nat) (element : T), c ∈ cols →
      marshalCols members row cols i element = none := by
  intro hnm cols
  induction cols with
  | nil => intro i element hc; cases hc
  | cons d ds ih =>
    intro i element hc
    unfold marshalCols
    cases hfind : members.find? (fun m => m.get_name == d) with
    | none => rfl
    | some m =>
      rcases List.mem_cons.mp hc with hcd | hcds
      · exfalso
        have hm : m ∈ members := List.mem_of_find?_eq_some hfind
        have hp := List.find?_some hfind
        simp only [beq_iff_eq] at hp
        exact hnm m hm (hcd ▸ hp)
      · exact ih _ _ hcds

/-- Helper: the do-while marshalling loop aborts when the current row
fails to marshal. -/
theorem queryRows_eq_none_of_head {T : Type} (f : DBRow → Option T)
    (row : DBRow) (rs : List DBRow) (h : f row = none) :
    queryRows f row rs = none := by
  cases rs <;> simp [queryRows, h]

/-- Helper: a successful do-while marshalling loop yields one element
per row. -/
theorem queryRows_length {T : Type} (f : DBRow → Option T) :
    ∀ (row : DBRow) (rs : List DBRow) (l : List T),
      queryRows f row rs = some l → l.length = rs.length + 1 := by
  intro row rs
  induction rs generalizing row with
  | nil =>
    intro l h
    unfold queryRows at h
    cases hf : f row with
    | none => rw [hf] at h; cases h
    | some t => rw [hf] at h; cases h; rfl
  | cons r2 rs2 ih =>
    intro l h
    unfold queryRows at h
    cases hf : f row with
    | none => rw [hf] at h; cases h
    | some t =>
      rw [hf] at h
      cases hq : queryRows f r2 rs2 with
      | none => rw [hq] at h; cases h
      | some ts =>
        rw [hq] at h
        cases h
        simpa using ih r2 ts hq

/-- Helper: a successful do-while marshalling loop places the marshal of
the i-th row at position i of the output, in cursor order. -/
theorem queryRows_get? {T : Type} (f : DBRow → Option T) :
    ∀ (row : DBRow) (rs : List DBRow) (l : List T),
      queryRows f row rs = some l →
      ∀ i : Nat, l.get? i = ((row :: rs).get? i).bind f := by
  intro row rs
  induction rs generalizing row with
  | nil =>
    intro l h i
    unfold queryRows at h
    cases hf : f row with
    | none => rw [hf] at h; cases h
    | some t =>
      rw [hf] at h
      cases h
      cases i with
      | zero => simp [hf]
      | succ j => simp
  | cons r2 rs2 ih =>
    intro l h i
    unfold queryRows at h
    cases hf : f row with
    | none => rw [hf] at h; cases h
    | some t =>
      rw [hf] at h
      cases hq : queryRows f r2 rs2 with
      | none => rw [hq] at h; cases h
      | some ts =>
        rw [hq] at h
        cases h
        cases i with
        | zero => simp [hf]
        | succ j => simpa using ih r2 ts hq j

/-- C1: for every typed mutation operation (`create_table`, `insert`,
`update`, `remove`), if the corresponding SQL compiler `*_tbl_sql`
returns an empty string, the operation returns `TARO_ERR_INVALID_ARG`
and no SQL text is passed to the execution facade for that call. -/
theorem mutation_invalid_arg_on_empty_sql :
    (∀ (T C : Type) (name : String) (members : List (ClsMemberReflector T))
        (csql : String → List (ClsMemberReflector T) → C → String) (constraint : C)
        (exec : String → ErrNo),
      name ≠ "" → members.length ≠ 0 → csql name members constraint = "" →
      create_table name members csql constraint exec = (some ErrNo.invalid_arg, []))
    ∧ (∀ (T P : Type) (obj : T) (name : String) (members : List (ClsMemberReflector T))
        (isql : T → String → List (ClsMemberReflector T) → P → String) (param : P)
        (exec : String → ErrNo),
      name ≠ "" → members.length ≠ 0 → isql obj name members param = "" →
      insert obj name members isql param exec = (some ErrNo.invalid_arg, []))
    ∧ (∀ (T P : Type) (obj : T) (name : String) (members : List (ClsMemberReflector T))
        (usql : T → String → List (ClsMemberReflector T) → P → String) (param : P)
        (exec : String → ErrNo),
      name ≠ "" → members.length ≠ 0 → usql obj name members param = "" →
      update obj name members usql param exec = (some ErrNo.invalid_arg, []))
    ∧ (∀ (C : Type) (cls_name : String) (rsql : String → C → String) (cond : C)
        (exec : String → ErrNo),
      rsql cls_name cond = "" →
      remove cls_name rsql cond exec = (ErrNo.invalid_arg, [])) := by
  refine ⟨?_, ?_, ?_, ?_⟩
  · intro T C name members csql constraint exec h1 h2 h3
    simp [create_table, h1, h2, h3]
  · intro T P obj name members isql param exec h1 h2 h3
    simp [insert, h1, h2, h3]
  · intro T P obj name members usql param exec h1 h2 h3
    simp [update, h1, h2, h3]
  · intro C cls_name rsql cond exec h3
    simp [remove, h3]

/-- Witness for C1 at a concrete instance: each mutation with a compiler
that returns the empty string yields `invalid_arg` with an empty facade
trace. -/
theorem mutation_invalid_arg_on_empty_sql_witness :
    create_table "User" [ClsMemberReflector.mk "id" (fun _ (t : Unit) => t)]
        (fun _ _ (_ : Unit) => "") () (fun _ => ErrNo.ok) = (some ErrNo.invalid_arg, [])
    ∧ insert () "User" [ClsMemberReflector.mk "id" (fun _ (t : Unit) => t)]
        (fun _ _ _ (_ : Unit) => "") () (fun _ => ErrNo.ok) = (some ErrNo.invalid_arg, [])
    ∧ update () "User" [ClsMemberReflector.mk "id" (fun _ (t : Unit) => t)]
        (fun _ _ _ (_ : Unit) => "") () (fun _ => ErrNo.ok) = (some ErrNo.invalid_arg, [])
    ∧ remove "User" (fun _ (_ : Unit) => "") () (fun _ => ErrNo.ok)
        = (ErrNo.invalid_arg, []) := by
  refine ⟨?_, ?_, ?_, ?_⟩
  · exact mutation_invalid_arg_on_empty_sql.1 Unit Unit "User" _ _ () _
      (by decide) (by decide) rfl
  · exact mutation_invalid_arg_on_empty_sql.2.1 Unit Unit () "User" _ _ () _
      (by decide) (by decide) rfl
  · exact mutation_invalid_arg_on_empty_sql.2.2.1 Unit Unit () "User" _ _ () _
      (by decide) (by decide) rfl
  · exact mutation_invalid_arg_on_empty_sql.2.2.2 Unit "User" _ () _ rfl

/-- C5: `DBQueryResult::get` returns an absent optional when the driver
value at the column is SQL NULL, and the codec `str_to_value` is never
invoked in that case (the result does not depend on the codec), so a
conversion failure cannot arise from a NULL value. -/
theorem get_null_absent_codec_not_invoked :
    ∀ (V : Type) (str_to_value str_to_value2 : String → Option V)
      (r : DBQueryResult) (col : Nat),
      r.get_col_val col = none →
      DBQueryResult.get str_to_value r col = none
      ∧ DBQueryResult.get str_to_value r col = DBQueryResult.get str_to_value2 r col := by
  intro V f g r col h
  constructor <;> simp [DBQueryResult.get, h]

/-- Witness for C5 at a concrete instance: a NULL first column yields an
absent value for a concrete codec. -/
theorem get_null_absent_codec_not_invoked_witness :
    (DBQueryResult.mk ["c"] [none] []).get_col_val 0 = none
    ∧ DBQueryResult.get (fun s => some s.length) (DBQueryResult.mk ["c"] [none] []) 0 = none := by
  refine ⟨rfl, ?_⟩
  exact (get_null_absent_codec_not_invoked Nat (fun s => some s.length)
    (fun s => some s.length) (DBQueryResult.mk ["c"] [none] []) 0 rfl).1

/-- C6: the type-information lookup first consults the registry; when
the mapping is present the self-registration callback is not invoked
(the registry is returned unchanged, whatever the callback); when absent
the callback is applied exactly once and the lookup repeated; a mapping
still absent after the callback is a fatal assertion abort. -/
theorem lazy_registration_lookup :
    ∀ (Reg M : Type) (find_cls : Reg → String) (getms : Reg → List M)
      (reflect : Reg → Reg) (inst : Reg),
      (find_cls inst ≠ "" →
        get_cls_info find_cls getms reflect inst
          = some (find_cls inst, getms inst, inst))
      ∧ (find_cls inst = "" → find_cls (reflect inst) ≠ "" →
        get_cls_info find_cls getms reflect inst
          = some (find_cls (reflect inst), getms (reflect inst), reflect inst))
      ∧ (find_cls inst = "" → find_cls (reflect inst) = "" →
        get_cls_info find_cls getms reflect inst = none) := by
  intro Reg M find_cls getms reflect inst
  refine ⟨?_, ?_, ?_⟩
  · intro h; simp [get_cls_info, h]
  · intro h1 h2; simp [get_cls_info, h1, h2]
  · intro h1 h2; simp [get_cls_info, h1, h2]

/-- Witness for C6 at concrete registries: a hit skips the callback, a
miss registers exactly once, a double miss aborts. -/
theorem lazy_registration_lookup_witness :
    get_cls_info (fun r : List String => r.headD "") (fun r => r)
        (fun r => "User" :: r) ["A"] = some ("A", ["A"], ["A"])
    ∧ get_cls_info (fun r : List String => r.headD "") (fun r => r)
        (fun r => "User" :: r) [] = some ("User", ["User"], ["User"])
    ∧ get_cls_info (fun r : List String => r.headD "") (fun r => r)
        (fun r => r) ([] : List String) = none := by
  refine ⟨?_, ?_, ?_⟩
  · exact (lazy_registration_lookup (List String) String _ _ _ ["A"]).1 (by decide)
  · exact (lazy_registration_lookup (List String) String _ _ _ []).2.1 rfl (by decide)
  · exact (lazy_registration_lookup (List String) String _ _ _ []).2.2 rfl rfl

/-- C10: when the cursor returned for a typed query reports an empty
column list, the typed query returns the empty result sequence (no
abort) and no object is marshalled, whatever the cursor rows hold. -/
theorem query_empty_columns_empty_result :
    ∀ (T Q : Type) (name : String) (members : List (ClsMemberReflector T))
      (element_default : T)
      (qsql : String → List (ClsMemberReflector T) → Q → String) (param : Q)
      (queryF : String → Option DBQueryResult) (result : DBQueryResult),
      name ≠ "" → members.length ≠ 0 → qsql name members param ≠ "" →
      queryF (qsql name members param) = some result →
      result.get_columns = [] →
      query name members element_default qsql param queryF
        = (some [], [qsql name members param]) := by
  intro T Q name members defT qsql param queryF result h1 h2 h3 h4 h5
  simp [query, h1, h2, h3, h4, h5]

/-- Witness for C10 at a concrete instance: a cursor with no columns but
a row yields the empty sequence. -/
theorem query_empty_columns_empty_result_witness :
    query "User" [ClsMemberReflector.mk "id" (fun _ (n : Nat) => n)] 0
        (fun _ _ (_ : Unit) => "SELECT") ()
        (fun _ => some (DBQueryResult.mk [] [some "1"] []))
      = (some [], ["SELECT"]) := by
  exact query_empty_columns_empty_result Nat Unit "User" _ 0 _ () _
    (DBQueryResult.mk [] [some "1"] [])
    (by decide) (by decide) (by decide) rfl rfl

/-- C2: during result marshalling in the typed query, a returned column
name with no member reflector of exactly that name is fatal: the per-row
marshal aborts (assertion, modelled `none`) and so does the whole typed
query — the column is neither skipped nor turned into a recoverable
error value. -/
theorem marshal_unknown_column_fatal :
    (∀ (T : Type) (members : List (ClsMemberReflector T)) (row : DBRow)
        (cols : List String) (i : Nat) (element : T) (c : String),
      c ∈ cols → (∀ m ∈ members, m.get_name ≠ c) →
      marshalCols members row cols i element = none)
    ∧ (∀ (T Q : Type) (name : String) (members : List (ClsMemberReflector T))
        (element_default : T)
        (qsql : String → List (ClsMemberReflector T) → Q → String) (param : Q)
        (queryF : String → Option DBQueryResult) (result : DBQueryResult) (c : String),
      name ≠ "" → members.length ≠ 0 → qsql name members param ≠ "" →
      queryF (qsql name members param) = some result →
      result.get_columns ≠ [] →
      c ∈ result.get_columns → (∀ m ∈ members, m.get_name ≠ c) →
      query name members element_default qsql param queryF
        = (none, [qsql name members param])) := by
  constructor
  · intro T members row cols i element c hc hnm
    exact marshalCols_eq_none_of_unmatched members row c hnm cols i element hc
  · intro T Q name members defT qsql param queryF result c h1 h2 h3 h4 h5 hc hnm
    have hrow : marshalRow members result.get_columns defT result.firstRow = none :=
      marshalCols_eq_none_of_unmatched members result.firstRow c hnm
        result.get_columns 0 defT hc
    have hloop := queryRows_eq_none_of_head
      (marshalRow members result.get_columns defT) result.firstRow result.restRows hrow
    simp [query, h1, h2, h3, h4, h5, hloop]

/-- Witness for C2 at a concrete instance: a cursor column `bogus` with
no reflector of that name aborts both the row marshal and the typed
query. -/
theorem marshal_unknown_column_fatal_witness :
    marshalCols [ClsMemberReflector.mk "id" (fun _ (n : Nat) => n)]
        [some "1"] ["bogus"] 0 0 = none
    ∧ query "User" [ClsMemberReflector.mk "id" (fun _ (n : Nat) => n)] 0
        (fun _ _ (_ : Unit) => "SELECT") ()
        (fun _ => some (DBQueryResult.mk ["bogus"] [some "1"] []))
      = (none, ["SELECT"]) := by
  constructor
  · exact marshal_unknown_column_fatal.1 Nat _ [some "1"] ["bogus"] 0 0 "bogus"
      (by simp) (by intro m hm; simp at hm; subst hm; decide)
  · exact marshal_unknown_column_fatal.2 Nat Unit "User" _ 0 _ ()
      (fun _ => some (DBQueryResult.mk ["bogus"] [some "1"] []))
      (DBQueryResult.mk ["bogus"] [some "1"] []) "bogus"
      (by decide) (by decide) (by decide) rfl (by decide)
      (by simp [DBQueryResult.get_columns])
      (by intro m hm; simp at hm; subst hm; decide)

/-- C3: for every cursor returned by a successful query execution, the
typed query marshals exactly one object per cursor row, in cursor order
(the i-th output is the marshal of the i-th row), with no reordering and
no deduplication; a query execution with zero rows (the engine hands
back no cursor) yields the empty result sequence. -/
theorem query_one_object_per_row_in_order :
    ∀ (T Q : Type) (name : String) (members : List (ClsMemberReflector T))
      (element_default : T)
      (qsql : String → List (ClsMemberReflector T) → Q → String) (param : Q)
      (queryF : String → Option DBQueryResult),
      name ≠ "" → members.length ≠ 0 → qsql name members param ≠ "" →
      ((queryF (qsql name members param) = none →
        query name members element_default qsql param queryF
          = (some [], [qsql name members param]))
       ∧ ∀ (result : DBQueryResult) (l : List T),
          queryF (qsql name members param) = some result →
          result.get_columns ≠ [] →
          queryRows (marshalRow members result.get_columns element_default)
            result.firstRow result.restRows = some l →
          query name members element_default qsql param queryF
            = (some l, [qsql name members param])
          ∧ l.length = result.rows.length
          ∧ ∀ i : Nat, l.get? i
              = (result.rows.get? i).bind
                  (marshalRow members result.get_columns element_default)) := by
  intro T Q name members defT qsql param queryF h1 h2 h3
  constructor
  · intro hnone
    simp [query, h1, h2, h3, hnone]
  · intro result l h4 h5 h6
    refine ⟨?_, ?_, ?_⟩
    · simp [query, h1, h2, h3, h4, h5, h6]
    · simpa [DBQueryResult.rows] using
        queryRows_length (marshalRow members result.get_columns defT)
          result.firstRow result.restRows l h6
    · intro i
      simpa [DBQueryResult.rows] using
        queryRows_get? (marshalRow members result.get_columns defT)
          result.firstRow result.restRows l h6 i

/-- Witness for C3 at a concrete instance: a two-row cursor yields the
two marshalled objects in cursor order; the matching engine call with no
cursor yields the empty sequence. -/
theorem query_one_object_per_row_in_order_witness :
    query "User" [ClsMemberReflector.mk "v" (fun o (_ : Nat) => (o.getD "").length)] 0
        (fun _ _ (_ : Unit) => "SELECT") ()
        (fun _ => some (DBQueryResult.mk ["v"] [some "ab"] [[some "abcd"]]))
      = (some [2, 4], ["SELECT"])
    ∧ query "User" [ClsMemberReflector.mk "v" (fun o (_ : Nat) => (o.getD "").length)] 0
        (fun _ _ (_ : Unit) => "SELECT") () (fun _ => none)
      = (some [], ["SELECT"]) := by
  constructor
  · exact ((query_one_object_per_row_in_order Nat Unit "User"
      [ClsMemberReflector.mk "v" (fun o (_ : Nat) => (o.getD "").length)] 0
      (fun _ _ (_ : Unit) => "SELECT") ()
      (fun _ => some (DBQueryResult.mk ["v"] [some "ab"] [[some "abcd"]]))
      (by decide) (by decide) (by decide)).2
      (DBQueryResult.mk ["v"] [some "ab"] [[some "abcd"]]) [2, 4]
      rfl (by simp [DBQueryResult.get_columns]) (by decide)).1
  · exact (query_one_object_per_row_in_order Nat Unit "User"
      [ClsMemberReflector.mk "v" (fun o (_ : Nat) => (o.getD "").length)] 0
      (fun _ _ (_ : Unit) => "SELECT") () (fun _ => none)
      (by decide) (by decide) (by decide)).1 rfl

/-- C4: a column whose driver value is SQL NULL leaves the freshly
default-initialized field at its default and the codec is never invoked:
the spec-modelled `deserialize` is the identity on the object for a
`none` value, its result does not depend on the codec, and the matching
step of the marshalling loop passes the accumulated element through
unchanged. -/
theorem null_column_leaves_default_codec_not_invoked :
    (∀ (T V : Type) (str_to_value : String → Option V) (wr : V → T → T) (obj : T),
      mkDeserialize str_to_value wr none obj = obj)
    ∧ (∀ (T V : Type) (str_to_value str_to_value2 : String → Option V) (wr : V → T → T),
      mkDeserialize str_to_value wr none = mkDeserialize str_to_value2 wr none)
    ∧ (∀ (T V : Type) (members : List (ClsMemberReflector T)) (row : DBRow)
        (c : String) (cs : List String) (i : Nat) (element : T)
        (str_to_value : String → Option V) (wr : V → T → T),
      members.find? (fun m => m.get_name == c)
        = some (ClsMemberReflector.mk c (mkDeserialize str_to_value wr)) →
      (row.get? i).join = none →
      marshalCols members row (c :: cs) i element
        = marshalCols members row cs (i + 1) element) := by
  refine ⟨?_, ?_, ?_⟩
  · intro T V f wr obj; rfl
  · intro T V f g wr; rfl
  · intro T V members row c cs i element f wr hfind hnull
    have hstep : marshalCols members row (c :: cs) i element
        = marshalCols members row cs (i + 1)
            (mkDeserialize f wr ((row.get? i).join) element) := by
      rw [marshalCols.eq_def]
      simp only [hfind]
    rw [hstep, hnull]
    rfl

/-- Witness for C4 at a concrete instance: a NULL cell leaves the object
unchanged and the loop step skips the write. -/
theorem null_column_leaves_default_codec_not_invoked_witness :
    mkDeserialize (fun s => some s.length) (fun v (_ : Nat) => v) none 7 = 7
    ∧ marshalCols
        [ClsMemberReflector.mk "v" (mkDeserialize (fun s => some s.length) (fun v (_ : Nat) => v))]
        [none] ["v"] 0 7
      = marshalCols
        [ClsMemberReflector.mk "v" (mkDeserialize (fun s => some s.length) (fun v (_ : Nat) => v))]
        [none] [] 1 7 := by
  constructor
  · exact null_column_leaves_default_codec_not_invoked.1 Nat Nat
      (fun s => some s.length) (fun v _ => v) 7
  · exact null_column_leaves_default_codec_not_invoked.2.2 Nat Nat
      [ClsMemberReflector.mk "v" (mkDeserialize (fun s => some s.length) (fun v (_ : Nat) => v))]
      [none] "v" [] 0 7 (fun s => some s.length) (fun v _ => v) rfl rfl

/-- C7: `count` returns a present value — the external parse of the
engine text, which is 0 for the text `0` the engine produces over zero
matching rows — whenever the engine hands back a cursor whose first
column is non-NULL, while `sum` and `average` return an absent value
exactly when the query result is unavailable or the first-column value
is SQL NULL. -/
theorem aggregate_present_vs_absent :
    ∀ (V C : Type) (atof : String → V) (atol : String → Nat) (column cls_name : String)
      (ssql asql : String → String → C → String) (csql : String → C → String)
      (cond : C) (queryF : String → Option DBQueryResult),
      (∀ (result : DBQueryResult) (v : String),
        csql cls_name cond ≠ "" →
        queryF (csql cls_name cond) = some result →
        result.get_col_val 0 = some v →
        count atol cls_name csql cond queryF
          = (some (some (atol v)), [csql cls_name cond]))
      ∧ (column ≠ "" → ssql cls_name column cond ≠ "" →
        ((sum atof column cls_name ssql cond queryF).1 = some none
          ↔ queryF (ssql cls_name column cond) = none
            ∨ ∃ result, queryF (ssql cls_name column cond) = some result
                ∧ result.get_col_val 0 = none))
      ∧ (column ≠ "" → asql cls_name column cond ≠ "" →
        ((average atof column cls_name asql cond queryF).1 = some none
          ↔ queryF (asql cls_name column cond) = none
            ∨ ∃ result, queryF (asql cls_name column cond) = some result
                ∧ result.get_col_val 0 = none)) := by
  intro V C atof atol column cls_name ssql asql csql cond queryF
  refine ⟨?_, ?_, ?_⟩
  · intro result v h1 h2 h3
    simp [count, h1, h2, h3]
  · intro h1 h2
    cases hq : queryF (ssql cls_name column cond) with
    | none => simp [sum, h1, h2, hq]
    | some result =>
      cases hv : result.get_col_val 0 with
      | none => simp [sum, h1, h2, hq, hv]
      | some v => simp [sum, h1, h2, hq, hv]
  · intro h1 h2
    cases hq : queryF (asql cls_name column cond) with
    | none => simp [average, h1, h2, hq]
    | some result =>
      cases hv : result.get_col_val 0 with
      | none => simp [average, h1, h2, hq, hv]
      | some v => simp [average, h1, h2, hq, hv]

/-- Witness for C7 at concrete instances: the `COUNT(*)` text `0` over
zero matching rows parses to the present value 0, and a `SUM` whose
first column is NULL is absent. -/
theorem aggregate_present_vs_absent_witness :
    count atol_model "User" (fun _ (_ : Unit) => "SC") ()
        (fun _ => some (DBQueryResult.mk ["n"] [some "0"] []))
      = (some (some 0), ["SC"])
    ∧ (sum (fun s => s) "age" "User" (fun _ _ (_ : Unit) => "SS") ()
        (fun _ => some (DBQueryResult.mk ["s"] [none] []))).1 = some none := by
  constructor
  · have h := (aggregate_present_vs_absent String Unit (fun s => s) atol_model "age" "User"
      (fun _ _ _ => "SS") (fun _ _ _ => "SA") (fun _ _ => "SC") ()
      (fun _ => some (DBQueryResult.mk ["n"] [some "0"] []))).1
      (DBQueryResult.mk ["n"] [some "0"] []) "0" (by decide) rfl rfl
    have h0 : atol_model "0" = 0 := by decide
    rw [h0] at h
    exact h
  · exact ((aggregate_present_vs_absent String Unit (fun s => s) atol_model "age" "User"
      (fun _ _ _ => "SS") (fun _ _ _ => "SA") (fun _ _ => "SC") ()
      (fun _ => some (DBQueryResult.mk ["s"] [none] []))).2.1
      (by decide) (by decide)).mpr
      (Or.inr ⟨DBQueryResult.mk ["s"] [none] [], rfl, rfl⟩)

/-- C8 counterexample: with a compiler returning empty SQL text, `count`
aborts by assertion (`TARO_ASSERT(!sql.empty())`, the `none` outer
result) instead of reporting an absent value to its caller — the claim
that the failure is reported without assertion abort is false. -/
theorem aggregate_empty_sql_asserts_cex :
    count atol_model "User" (fun _ (_ : Unit) => "") () (fun _ => none) = (none, [])
    ∧ (count atol_model "User" (fun _ (_ : Unit) => "") () (fun _ => none)).1 ≠ some none := by
  constructor
  · rfl
  · decide

/-- C8 amended: for every aggregate operation (`sum`, `count`,
`average`), a compile-time failure (the compiler returning empty SQL
text) triggers the assertion abort before any execution is attempted —
no SQL string reaches the facade — rather than being reported to the
caller as a recoverable absent result. -/
theorem aggregate_empty_sql_aborts_before_execution :
    ∀ (V C : Type) (atof : String → V) (atol : String → Nat) (column cls_name : String)
      (ssql asql : String → String → C → String) (csql : String → C → String)
      (cond : C) (queryF : String → Option DBQueryResult),
      (csql cls_name cond = "" →
        count atol cls_name csql cond queryF = (none, []))
      ∧ (column ≠ "" → ssql cls_name column cond = "" →
        sum atof column cls_name ssql cond queryF = (none, []))
      ∧ (column ≠ "" → asql cls_name column cond = "" →
        average atof column cls_name asql cond queryF = (none, [])) := by
  intro V C atof atol column cls_name ssql asql csql cond queryF
  refine ⟨?_, ?_, ?_⟩
  · intro h; simp [count, h]
  · intro h1 h2; simp [sum, h1, h2]
  · intro h1 h2; simp [average, h1, h2]

/-- Witness for the amended C8 at a concrete instance: each aggregate
with an empty compilation aborts with an empty facade trace. -/
theorem aggregate_empty_sql_aborts_before_execution_witness :
    count atol_model "User" (fun _ (_ : Unit) => "") () (fun _ => none) = (none, [])
    ∧ sum (fun s => s) "age" "User" (fun _ _ (_ : Unit) => "") () (fun _ => none)
        = (none, [])
    ∧ average (fun s => s) "age" "User" (fun _ _ (_ : Unit) => "") () (fun _ => none)
        = (none, []) := by
  refine ⟨?_, ?_, ?_⟩
  · exact (aggregate_empty_sql_aborts_before_execution String Unit (fun s => s)
      atol_model "age" "User" (fun _ _ _ => "") (fun _ _ _ => "") (fun _ _ => "") ()
      (fun _ => none)).1 rfl
  · exact (aggregate_empty_sql_aborts_before_execution String Unit (fun s => s)
      atol_model "age" "User" (fun _ _ _ => "") (fun _ _ _ => "") (fun _ _ => "") ()
      (fun _ => none)).2.1 (by decide) rfl
  · exact (aggregate_empty_sql_aborts_before_execution String Unit (fun s => s)
      atol_model "age" "User" (fun _ _ _ => "") (fun _ _ _ => "") (fun _ _ => "") ()
      (fun _ => none)).2.2 (by decide) rfl

/-- C9 counterexample: `drop_table` hands the execution facade the
non-empty SQL string `drop table User`, built inline by string
concatenation — its definition consults no `*_tbl_sql` compiler
function, so the claim that every string handed to the facade is a
compiler value fails on this operation. -/
theorem drop_table_inline_sql_cex :
    (drop_table "User" (fun _ => ErrNo.ok)).2 = ["drop table User"]
    ∧ ("drop table User" : String) ≠ "" := by
  constructor
  · rfl
  · decide

/-- C9 amended: every typed operation other than `drop_table` hands the
execution facade only SQL text returned by its `*_tbl_sql` compiler
function, while `drop_table` hands it exactly the inline-concatenated
string `drop table ` followed by the class name. -/
theorem facade_sql_from_compiler_except_drop :
    (∀ (T C : Type) (name : String) (members : List (ClsMemberReflector T))
        (csql : String → List (ClsMemberReflector T) → C → String) (constraint : C)
        (exec : String → ErrNo) (s : String),
      s ∈ (create_table name members csql constraint exec).2 →
      s = csql name members constraint)
    ∧ (∀ (T P : Type) (obj : T) (name : String) (members : List (ClsMemberReflector T))
        (isql : T → String → List (ClsMemberReflector T) → P → String) (param : P)
        (exec : String → ErrNo) (s : String),
      s ∈ (insert obj name members isql param exec).2 →
      s = isql obj name members param)
    ∧ (∀ (T P : Type) (obj : T) (name : String) (members : List (ClsMemberReflector T))
        (isql : T → String → List (ClsMemberReflector T) → P → String) (param : P)
        (execid : String → ErrNo × Nat) (s : String),
      s ∈ (insert_ret_id obj name members isql param execid).2 →
      s = isql obj name members param)
    ∧ (∀ (T P : Type) (obj : T) (name : String) (members : List (ClsMemberReflector T))
        (usql : T → String → List (ClsMemberReflector T) → P → String) (param : P)
        (exec : String → ErrNo) (s : String),
      s ∈ (update obj name members usql param exec).2 →
      s = usql obj name members param)
    ∧ (∀ (C : Type) (cls_name : String) (rsql : String → C → String) (cond : C)
        (exec : String → ErrNo) (s : String),
      s ∈ (remove cls_name rsql cond exec).2 → s = rsql cls_name cond)
    ∧ (∀ (T Q : Type) (name : String) (members : List (ClsMemberReflector T))
        (element_default : T)
        (qsql : String → List (ClsMemberReflector T) → Q → String) (param : Q)
        (queryF : String → Option DBQueryResult) (s : String),
      s ∈ (query name members element_default qsql param queryF).2 →
      s = qsql name members param)
    ∧ (∀ (V C : Type) (atof : String → V) (column cls_name : String)
        (ssql : String → String → C → String) (cond : C)
        (queryF : String → Option DBQueryResult) (s : String),
      s ∈ (sum atof column cls_name ssql cond queryF).2 →
      s = ssql cls_name column cond)
    ∧ (∀ (C : Type) (atol : String → Nat) (cls_name : String)
        (csql : String → C → String) (cond : C)
        (queryF : String → Option DBQueryResult) (s : String),
      s ∈ (count atol cls_name csql cond queryF).2 → s = csql cls_name cond)
    ∧ (∀ (V C : Type) (atof : String → V) (column cls_name : String)
        (asql : String → String → C → String) (cond : C)
        (queryF : String → Option DBQueryResult) (s : String),
      s ∈ (average atof column cls_name asql cond queryF).2 →
      s = asql cls_name column cond)
    ∧ (∀ (cls_name : String) (exec : String → ErrNo),
      (drop_table cls_name exec).2 = ["drop table " ++ cls_name]) := by
  refine ⟨?_, ?_, ?_, ?_, ?_, ?_, ?_, ?_, ?_, ?_⟩
  · intro T C name members csql constraint exec s hs
    simp only [create_table] at hs
    split at hs
    · simp at hs
    · split at hs
      · simp at hs
      · split at hs <;> (simp at hs; exact hs)
  · intro T P obj name members isql param exec s hs
    simp only [insert] at hs
    split at hs
    · simp at hs
    · split at hs
      · simp at hs
      · split at hs <;> (simp at hs; exact hs)
  · intro T P obj name members isql param execid s hs
    simp only [insert_ret_id] at hs
    split at hs
    · simp at hs
    · split at hs
      · simp at hs
      · split at hs <;> (simp at hs; exact hs)
  · intro T P obj name members usql param exec s hs
    simp only [update] at hs
    split at hs
    · simp at hs
    · split at hs
      · simp at hs
      · split at hs <;> (simp at hs; exact hs)
  · intro C cls_name rsql cond exec s hs
    simp only [remove] at hs
    split at hs
    · simp at hs
    · split at hs <;> (simp at hs; exact hs)
  · intro T Q name members defT qsql param queryF s hs
    simp only [query] at hs
    split at hs
    · simp at hs
    · split at hs
      · simp at hs
      · split at hs
        · simp at hs; exact hs
        · split at hs <;> (simp at hs; exact hs)
  · intro V C atof column cls_name ssql cond queryF s hs
    simp only [sum] at hs
    split at hs
    · simp at hs
    · split at hs
      · simp at hs
      · split at hs
        · simp at hs; exact hs
        · split at hs <;> (simp at hs; exact hs)
  · intro C atol cls_name csql cond queryF s hs
    simp only [count] at hs
    split at hs
    · simp at hs
    · split at hs
      · simp at hs; exact hs
      · split at hs <;> (simp at hs; exact hs)
  · intro V C atof column cls_name asql cond queryF s hs
    simp only [average] at hs
    split at hs
    · simp at hs
    · split at hs
      · simp at hs
      · split at hs
        · simp at hs; exact hs
        · split at hs <;> (simp at hs; exact hs)
  · intro cls_name exec
    simp only [drop_table]
    split <;> rfl

/-- Witness for the amended C9 at a concrete instance: the SQL executed
by a concrete `create_table` call is its compiler's output and
`drop_table` executes its inline-concatenated statement. -/
theorem facade_sql_from_compiler_except_drop_witness :
    ("CT" ∈ (create_table "User" [ClsMemberReflector.mk "id" (fun _ (t : Unit) => t)]
        (fun _ _ (_ : Unit) => "CT") () (fun _ => ErrNo.ok)).2
      ∧ "CT" = (fun (_ : String) (_ : List (ClsMemberReflector Unit)) (_ : Unit) => "CT")
          "User" [ClsMemberReflector.mk "id" (fun _ (t : Unit) => t)] ())
    ∧ (drop_table "User" (fun _ => ErrNo.ok)).2 = ["drop table " ++ "User"] := by
  have hs : "CT" ∈ (create_table "User" [ClsMemberReflector.mk "id" (fun _ (t : Unit) => t)]
      (fun _ _ (_ : Unit) => "CT") () (fun _ => ErrNo.ok)).2 := by decide
  exact ⟨⟨hs, facade_sql_from_compiler_except_drop.1 Unit Unit "User" _ _ () _ "CT" hs⟩,
    facade_sql_from_compiler_except_drop.2.2.2.2.2.2.2.2.2 "User" (fun _ => ErrNo.ok)⟩

end TaroDB
